import Mathlib

/-!
Shallow embedding of the LinkForty Expo SDK core (attribution and delivery
pipeline): the network transport with retry/backoff, the persistent offline
event queue, the event dispatcher, the install-attribution coordinator and the
deferred deep-link dispatcher, together with the SDK facade guards.

Conventions of the embedding:
* JavaScript promises are flattened: every operation is a pure function from
  its inputs (including the persistent key/value store and an oracle for
  network outcomes) to its outputs and the successor state.
* `AsyncStorage` is modelled as a record with one typed slot per storage key
  used by the SDK (`@linkforty:install_id`, `@linkforty:install_data`,
  `@linkforty:first_launch`, `@linkforty:event_queue`); a slot `none` means
  the key is absent.  JSON encode/decode of a stored value round-trips, so a
  slot directly holds the decoded value.
* Thrown `LinkFortyError`s become `Except LFError` results.
* `Record<string, unknown>` / `Record<string, string>` payloads that no
  operation inspects are modelled as association lists of strings.
-/

namespace LinkForty

/-- Event record built per `trackEvent` call (src/models/event-request.ts). -/
structure EventRequest where
  installId : String
  eventName : String
  eventData : List (String × String)
  timestamp : String
deriving DecidableEq, Repr

/-- Deep link payload (src/models/deep-link-data.ts).  The wire form of a
server response may additionally carry the legacy field `deepLinkParameters`,
which the attribution coordinator normalizes into `customParameters`; it is
included here so normalization can be stated. -/
structure DeepLinkData where
  shortCode : String
  iosUrl : Option String := none
  androidUrl : Option String := none
  webUrl : Option String := none
  utmParameters : Option (List (String × String)) := none
  customParameters : Option (List (String × String)) := none
  deepLinkParameters : Option (List (String × String)) := none
deriving DecidableEq, Repr

/-- Server response for an install report (src/models/install-response.ts). -/
structure InstallAttributionResponse where
  installId : String
  attributed : Bool
  confidenceScore : Nat
  matchedFactors : List String
  deepLinkData : Option DeepLinkData
deriving DecidableEq, Repr

/-- Error codes of the SDK error type (src/errors/linkforty-error.ts). -/
inductive LFErrorCode where
  | NOT_INITIALIZED
  | ALREADY_INITIALIZED
  | INVALID_CONFIGURATION
  | NETWORK_ERROR
  | INVALID_RESPONSE
  | DECODING_ERROR
  | INVALID_EVENT_DATA
  | INVALID_DEEP_LINK_URL
  | MISSING_API_KEY
deriving DecidableEq, Repr

/-- The SDK error type, one constructor per factory of `LinkFortyError`
(src/errors/linkforty-error.ts); each carries the payload the factory stores
(status code, optional server message, cause). -/
inductive LFError where
  | notInitialized
  | alreadyInitialized
  | invalidConfiguration (detail : String)
  | networkError (cause : String)
  | invalidResponse (statusCode : Nat) (message : Option String)
  | decodingError (cause : String)
  | invalidEventData (detail : String)
  | invalidDeepLinkUrl (detail : String)
  | missingApiKey
deriving DecidableEq, Repr

/-- The `.code` property of a `LinkFortyError`. -/
def LFError.code : LFError → LFErrorCode
  | .notInitialized => .NOT_INITIALIZED
  | .alreadyInitialized => .ALREADY_INITIALIZED
  | .invalidConfiguration _ => .INVALID_CONFIGURATION
  | .networkError _ => .NETWORK_ERROR
  | .invalidResponse _ _ => .INVALID_RESPONSE
  | .decodingError _ => .DECODING_ERROR
  | .invalidEventData _ => .INVALID_EVENT_DATA
  | .invalidDeepLinkUrl _ => .INVALID_DEEP_LINK_URL
  | .missingApiKey => .MISSING_API_KEY

/-- The persistent key/value store (`AsyncStorage`), one typed slot per
storage key of src/storage/storage-keys.ts. -/
structure Storage where
  installId : Option String
  installData : Option DeepLinkData
  firstLaunchFlag : Option String
  eventQueue : Option (List EventRequest)
deriving DecidableEq, Repr

namespace StorageManager

/-- StorageManager.saveInstallId (src/storage/storage-manager.ts). -/
def saveInstallId (st : Storage) (installId : String) : Storage :=
  { st with installId := some installId }

/-- StorageManager.getInstallId. -/
def getInstallId (st : Storage) : Option String :=
  st.installId

/-- StorageManager.saveInstallData (the JSON encode cannot fail on this
data model, so the write always happens). -/
def saveInstallData (st : Storage) (data : DeepLinkData) : Storage :=
  { st with installData := some data }

/-- StorageManager.getInstallData (absent key or decode failure gives null;
in the typed store only absence arises). -/
def getInstallData (st : Storage) : Option DeepLinkData :=
  st.installData

/-- StorageManager.isFirstLaunch: true iff the first-launch flag is absent. -/
def isFirstLaunch (st : Storage) : Bool :=
  st.firstLaunchFlag = none

/-- StorageManager.setHasLaunched: stores the string 'true' under the flag. -/
def setHasLaunched (st : Storage) : Storage :=
  { st with firstLaunchFlag := some "true" }

/-- StorageManager.clearAll: `AsyncStorage.multiRemove` of the install id,
install data, first-launch flag and event queue keys. -/
def clearAll (_st : Storage) : Storage :=
  { installId := none
    installData := none
    firstLaunchFlag := none
    eventQueue := none }

end StorageManager

/-- In-memory state of one `EventQueue` instance (src/events/event-queue.ts):
its `queue` array and the `loaded` latch. -/
structure EventQueueState where
  queue : List EventRequest
  loaded : Bool
deriving DecidableEq, Repr

namespace EventQueue

/-- The capacity bound MAX_QUEUE_SIZE of src/events/event-queue.ts. -/
def MAX_QUEUE_SIZE : Nat := 100

/-- A fresh `EventQueue` instance: empty and not yet loaded. -/
def fresh : EventQueueState :=
  { queue := [], loaded := false }

/-- EventQueue.load: at most once per instance, read the persisted entry
(missing or corrupt data gives the empty queue) and set the latch. -/
def load (s : EventQueueState) (st : Storage) : EventQueueState :=
  if s.loaded then s
  else { queue := st.eventQueue.getD [], loaded := true }

/-- EventQueue.persist: write the current in-memory queue to storage. -/
def persist (s : EventQueueState) (st : Storage) : Storage :=
  { st with eventQueue := some s.queue }

/-- EventQueue.enqueue: load first, reject (false, no mutation) when the
queue already holds MAX_QUEUE_SIZE records, else append, persist, return
true. -/
def enqueue (s : EventQueueState) (st : Storage) (ev : EventRequest) :
    EventQueueState × Storage × Bool :=
  let s := load s st
  if MAX_QUEUE_SIZE ≤ s.queue.length then
    (s, st, false)
  else
    let s' := { s with queue := s.queue ++ [ev] }
    (s', persist s' st, true)

/-- EventQueue.dequeue: load first, return null on an empty queue, else
remove the head (FIFO) and persist. -/
def dequeue (s : EventQueueState) (st : Storage) :
    EventQueueState × Storage × Option EventRequest :=
  let s := load s st
  match s.queue with
  | [] => (s, st, none)
  | ev :: rest =>
    let s' := { s with queue := rest }
    (s', persist s' st, some ev)

/-- EventQueue.clear: drop the in-memory queue and persist the empty list
(the `loaded` latch is not touched). -/
def clear (s : EventQueueState) (st : Storage) : EventQueueState × Storage :=
  let s' := { s with queue := [] }
  (s', persist s' st)

/-- EventQueue.peek: snapshot copy of the loaded queue. -/
def peek (s : EventQueueState) (st : Storage) :
    EventQueueState × List EventRequest :=
  let s := load s st
  (s, s.queue)

/-- The `count` getter. -/
def count (s : EventQueueState) : Nat :=
  s.queue.length

/-- The `isEmpty` getter. -/
def isEmpty (s : EventQueueState) : Bool :=
  s.queue.length = 0

end EventQueue

deriving instance DecidableEq for Except

/-- The guard test of `trackEvent`: `!name || !name.trim()`, true iff the
name is empty or all-whitespace.  (`String.trim` itself does not reduce
inside Lean's kernel, so the equivalent all-whitespace test is used.) -/
def blankEventName (name : String) : Bool :=
  name.data.all Char.isWhitespace

namespace EventTracker

/-- Outcome of one `flushQueue` call: the queue instance and store after the
call, the records sent successfully (in send order) and, when a send failed,
the failed record together with the thrown error and the boolean result of
its re-enqueue. -/
structure FlushOutcome where
  queue : EventQueueState
  storage : Storage
  sent : List EventRequest
  failed : Option (EventRequest × LFError × Bool)
deriving DecidableEq, Repr

/-- The flush loop of EventTracker.flushQueue (src/events/event-tracker.ts):
while the queue is non-empty, dequeue and send; on the first send failure,
re-enqueue the failed record and stop.  `sends idx` is the outcome of the
idx-th network send of this call (`none` = success, `some e` = the thrown
error); `fuel` bounds the iteration count (each iteration removes a record,
so `initial length + 1` suffices). -/
def flushLoop (sends : Nat → Option LFError) :
    Nat → Nat → EventQueueState → Storage → FlushOutcome
  | 0, _, s, st => ⟨s, st, [], none⟩
  | fuel + 1, idx, s, st =>
    if EventQueue.isEmpty s then ⟨s, st, [], none⟩
    else
      match EventQueue.dequeue s st with
      | (s', st', none) => ⟨s', st', [], none⟩
      | (s', st', some ev) =>
        match sends idx with
        | none =>
          let rest := flushLoop sends fuel (idx + 1) s' st'
          ⟨rest.queue, rest.storage, ev :: rest.sent, rest.failed⟩
        | some err =>
          let r := EventQueue.enqueue s' st' ev
          ⟨r.1, r.2.1, [], some (ev, err, r.2.2)⟩

/-- EventTracker.flushQueue: load the queue, then run the flush loop. -/
def flushQueue (sends : Nat → Option LFError) (s : EventQueueState)
    (st : Storage) : FlushOutcome :=
  let s0 := EventQueue.load s st
  flushLoop sends (s0.queue.length + 1) 0 s0 st

/-- Outcome of one `trackEvent` / `trackRevenue` call. -/
structure TrackOutcome where
  result : Except LFError Unit
  queue : EventQueueState
  storage : Storage
deriving DecidableEq, Repr

/-- EventTracker.trackEvent (src/events/event-tracker.ts): reject an empty or
all-whitespace name; require a cached install id; build the record with the
call-time timestamp; send it (`sends 0`); on success run `flushQueue` as a
courtesy (consuming the subsequent send outcomes); on failure enqueue the
record and re-raise the original error. -/
def trackEvent (sends : Nat → Option LFError) (s : EventQueueState)
    (st : Storage) (name : String) (props : List (String × String))
    (timestamp : String) : TrackOutcome :=
  if blankEventName name then
    ⟨.error (.invalidEventData "Event name cannot be empty"), s, st⟩
  else
    match StorageManager.getInstallId st with
    | none => ⟨.error .notInitialized, s, st⟩
    | some installId =>
      let ev : EventRequest :=
        { installId := installId, eventName := name, eventData := props
          timestamp := timestamp }
      match sends 0 with
      | none =>
        let fr := flushQueue (fun n => sends (n + 1)) s st
        ⟨.ok (), fr.queue, fr.storage⟩
      | some e =>
        let r := EventQueue.enqueue s st ev
        ⟨.error e, r.1, r.2.1⟩

/-- EventTracker.trackRevenue: reject a negative amount, otherwise delegate
to `trackEvent 'revenue'` with the revenue and currency merged into the
properties (the JS number is modelled as an integer; only its sign is
inspected). -/
def trackRevenue (sends : Nat → Option LFError) (s : EventQueueState)
    (st : Storage) (amount : Int) (currency : String)
    (props : List (String × String)) (timestamp : String) : TrackOutcome :=
  if amount < 0 then
    ⟨.error (.invalidEventData "Revenue amount must be non-negative"), s, st⟩
  else
    trackEvent sends s st "revenue"
      (props ++ [("revenue", toString amount), ("currency", currency)]) timestamp

/-- EventTracker.clearQueue. -/
def clearQueue (s : EventQueueState) (st : Storage) :
    EventQueueState × Storage :=
  EventQueue.clear s st

/-- The `queuedEventCount` getter. -/
def queuedEventCount (s : EventQueueState) : Nat :=
  EventQueue.count s

end EventTracker

/-- What one HTTP attempt of the transport observes, abstracting `fetch` and
`response.json()` (src/network/network-manager.ts, performRequest):
a 2xx response with a parseable body, a non-2xx response (status plus the
server-supplied message when its body parses), a transport-level failure
(`fetch` throws: DNS/connection/timeout), or a 2xx response whose body fails
to parse. -/
inductive AttemptResult where
  | success (body : String)
  | httpError (statusCode : Nat) (serverMessage : Option String)
  | transportFailure (cause : String)
  | decodeFailure (cause : String)
deriving DecidableEq, Repr

namespace NetworkManager

/-- The retry bound `maxRetries` of NetworkManager. -/
def maxRetries : Nat := 3

/-- NetworkManager.performRequest: classify one attempt's observation into a
thrown `LinkFortyError` or the decoded body. -/
def performRequest : AttemptResult → Except LFError String
  | .success body => .ok body
  | .httpError status msg => .error (.invalidResponse status msg)
  | .transportFailure cause => .error (.networkError cause)
  | .decodeFailure cause => .error (.decodingError cause)

/-- The retry classification inside NetworkManager.request's catch block: an
INVALID_RESPONSE whose status (regex-extracted from the message, which by
construction always embeds the constructor's status) lies in [400,500), an
INVALID_CONFIGURATION or a DECODING_ERROR is rethrown immediately; everything
else is retried. -/
def isNonRetryable : LFError → Bool
  | .invalidResponse status _ => 400 ≤ status && status < 500
  | .invalidConfiguration _ => true
  | .decodingError _ => true
  | _ => false

/-- Result of one NetworkManager.request call: the value returned or error
thrown, the number of attempts performed, and the backoff delays (in
milliseconds) slept between attempts, in order. -/
structure RequestOutcome where
  result : Except LFError String
  attempts : Nat
  delaysMs : List Nat
deriving DecidableEq, Repr

/-- The final throw after the attempt loop of NetworkManager.request:
`lastError instanceof LinkFortyError ? lastError : networkError(...)`.
Every error thrown by performRequest is a LinkFortyError, so the model keeps
the last error when one exists and only otherwise builds the fallback
network error. -/
def finalThrow (lastError : Option LFError) (attempts : Nat)
    (delays : List Nat) : RequestOutcome :=
  ⟨.error (match lastError with
           | some e => e
           | none => .networkError "Request failed after 3 attempts"),
   attempts, delays⟩

/-- The attempt loop of NetworkManager.request: `for attempt in 1..maxRetries`,
with exponential backoff `2^(attempt-1)` seconds between retryable attempts
and none after the final one.  `oracle n` is what the n-th attempt observes
(attempts are numbered from 1). -/
def requestGo (oracle : Nat → AttemptResult) :
    Nat → Nat → Option LFError → List Nat → RequestOutcome
  | 0, attempt, lastError, delays => finalThrow lastError (attempt - 1) delays
  | fuel + 1, attempt, lastError, delays =>
    if maxRetries < attempt then finalThrow lastError (attempt - 1) delays
    else
      match performRequest (oracle attempt) with
      | .ok body => ⟨.ok body, attempt, delays⟩
      | .error e =>
        if isNonRetryable e then ⟨.error e, attempt, delays⟩
        else
          requestGo oracle fuel (attempt + 1) (some e)
            (if attempt < maxRetries then delays ++ [2 ^ (attempt - 1) * 1000]
             else delays)

/-- NetworkManager.request: run the attempt loop from attempt 1. -/
def request (oracle : Nat → AttemptResult) : RequestOutcome :=
  requestGo oracle (maxRetries + 1) 1 none []

end NetworkManager

namespace AttributionManager

/-- Result of one `reportInstall` call: the returned response, the storage
after the call, and whether a network request was issued. -/
structure ReportOutcome where
  response : InstallAttributionResponse
  storage : Storage
  networkCalled : Bool
deriving DecidableEq, Repr

/-- AttributionManager.buildCachedResponse
(src/attribution/attribution-manager.ts): synthesize a response purely from
cached storage. -/
def buildCachedResponse (st : Storage) : InstallAttributionResponse :=
  let installId := StorageManager.getInstallId st
  let deepLinkData := StorageManager.getInstallData st
  { installId := installId.getD ""
    attributed := deepLinkData.isSome
    confidenceScore := if deepLinkData.isSome then 100 else 0
    matchedFactors := []
    deepLinkData := deepLinkData }

/-- The legacy-field normalization applied to an attributed response's deep
link data: `customParameters := deepLinkParameters ?? customParameters`
(the legacy wire field wins when both are present); the rest of the payload
is spread through unchanged. -/
def normalizeDeepLinkData (dl : DeepLinkData) : DeepLinkData :=
  { dl with customParameters :=
      match dl.deepLinkParameters with
      | some p => some p
      | none => dl.customParameters }

/-- AttributionManager.reportInstall.  The fingerprint collection only feeds
the POSTed body, so it is not modelled; `oracle` is the outcome of the one
possible network request (the thrown error's identity is irrelevant, the
catch block discards it).  Repeat launch: cached response, no network call.
First launch: on network failure treat as organic and still set the launch
flag; on success cache a non-empty install id, and for an attributed
response with a payload normalize and cache the payload and return the
response with the normalized payload substituted; set the launch flag. -/
def reportInstall (oracle : Except LFError InstallAttributionResponse)
    (st : Storage) : ReportOutcome :=
  if StorageManager.isFirstLaunch st = false then
    ⟨buildCachedResponse st, st, false⟩
  else
    match oracle with
    | .error _ =>
      ⟨{ installId := "", attributed := false, confidenceScore := 0
         matchedFactors := [], deepLinkData := none },
       StorageManager.setHasLaunched st, true⟩
    | .ok response =>
      let st1 := if response.installId ≠ "" then
          StorageManager.saveInstallId st response.installId
        else st
      match response.attributed, response.deepLinkData with
      | true, some dl =>
        let dl' := normalizeDeepLinkData dl
        let st2 := StorageManager.saveInstallData st1 dl'
        ⟨{ response with deepLinkData := some dl' },
         StorageManager.setHasLaunched st2, true⟩
      | _, _ =>
        ⟨response, StorageManager.setHasLaunched st1, true⟩

/-- AttributionManager.getInstallId: pure read through the storage. -/
def getInstallId (st : Storage) : Option String :=
  StorageManager.getInstallId st

/-- AttributionManager.getInstallData: pure read through the storage. -/
def getInstallData (st : Storage) : Option DeepLinkData :=
  StorageManager.getInstallData st

/-- AttributionManager.isFirstLaunch: pure read through the storage. -/
def isFirstLaunch (st : Storage) : Bool :=
  StorageManager.isFirstLaunch st

/-- AttributionManager.clearData: delegate to StorageManager.clearAll. -/
def clearData (st : Storage) : Storage :=
  StorageManager.clearAll st

end AttributionManager

/-- Callback-registry state of one `DeepLinkHandler` instance
(src/deeplink/deep-link-handler.ts).  Callbacks are function values; the
model identifies each by a number, and every operation additionally returns
the list of synchronous invocations it performed, as pairs of callback id
and delivered payload, in invocation order. -/
structure DeepLinkState where
  deferredCallbacks : List Nat
  deepLinkCallbacks : List Nat
  deferredDelivered : Bool
  cachedDeferredData : Option DeepLinkData
deriving DecidableEq, Repr

namespace DeepLinkHandler

/-- One synchronous callback invocation: which callback, with which payload
(`none` = the JS `null`, an organic install). -/
abbrev Invocation := Nat × Option DeepLinkData

/-- A fresh handler: empty registries, latch unset. -/
def fresh : DeepLinkState :=
  { deferredCallbacks := [], deepLinkCallbacks := []
    deferredDelivered := false, cachedDeferredData := none }

/-- DeepLinkHandler.onDeferredDeepLink: append the callback to the deferred
registry; if delivery already happened, invoke it immediately with the
cached payload. -/
def onDeferredDeepLink (s : DeepLinkState) (cb : Nat) :
    DeepLinkState × List Invocation :=
  let s' := { s with deferredCallbacks := s.deferredCallbacks ++ [cb] }
  (s', if s.deferredDelivered then [(cb, s.cachedDeferredData)] else [])

/-- DeepLinkHandler.onDeepLink: append the callback to the direct registry. -/
def onDeepLink (s : DeepLinkState) (cb : Nat) : DeepLinkState :=
  { s with deepLinkCallbacks := s.deepLinkCallbacks ++ [cb] }

/-- DeepLinkHandler.deliverDeferredDeepLink: cache the payload, set the
latch, then synchronously invoke every currently-registered deferred
callback with the payload, in registration order. -/
def deliverDeferredDeepLink (s : DeepLinkState) (data : Option DeepLinkData) :
    DeepLinkState × List Invocation :=
  ({ s with cachedDeferredData := data, deferredDelivered := true },
   s.deferredCallbacks.map (fun cb => (cb, data)))

/-- DeepLinkHandler.clearCallbacks: empty both registries and reset the
latch and the cached payload. -/
def clearCallbacks (_s : DeepLinkState) : DeepLinkState :=
  fresh

end DeepLinkHandler

/-- The configuration object (src/models/config.ts); only the fields the
modelled operations inspect are typed precisely. -/
structure Config where
  baseUrl : String
  apiKey : Option String := none
  debug : Option Bool := none
  attributionWindowHours : Option Nat := none
deriving DecidableEq, Repr

/-- Instance state of the `LinkFortySDK` facade (src/linkforty-sdk.ts): the
nullable sub-component references and the `_isInitialized` flag.  The
attribution manager and network manager hold no own state, so presence
booleans stand for their references; the event tracker's state is its
queue instance; the deep-link handler's state is its registry state. -/
structure SDKState where
  config : Option Config
  networkPresent : Bool
  attributionPresent : Bool
  deepLinkHandler : Option DeepLinkState
  eventTracker : Option EventQueueState
  isInit : Bool
deriving DecidableEq, Repr

namespace LinkFortySDK

/-- A freshly constructed facade: every sub-component reference is null and
the flag is false (the state before `initialize()` has succeeded). -/
def initialState : SDKState :=
  { config := none, networkPresent := false, attributionPresent := false
    deepLinkHandler := none, eventTracker := none, isInit := false }

/-- LinkFortySDK.reset: null every sub-component reference and drop the
flag (the old handler's cleanup only affects the discarded instance). -/
def reset (_s : SDKState) : SDKState :=
  initialState

/-- The `requireInitialized` guard. -/
def requireInitialized (s : SDKState) : Except LFError Unit :=
  if s.isInit then .ok () else .error .notInitialized

/-- The `requireDeepLinkHandler` guard: throws unless the flag is set and
the handler reference is non-null. -/
def requireDeepLinkHandler (s : SDKState) : Except LFError DeepLinkState :=
  match s.isInit, s.deepLinkHandler with
  | true, some dl => .ok dl
  | _, _ => .error .notInitialized

/-- The `requireEventTracker` guard: throws unless the flag is set and the
tracker reference is non-null. -/
def requireEventTracker (s : SDKState) : Except LFError EventQueueState :=
  match s.isInit, s.eventTracker with
  | true, some q => .ok q
  | _, _ => .error .notInitialized

/-- LinkFortySDK.onDeferredDeepLink: guard, then delegate. -/
def onDeferredDeepLink (s : SDKState) (cb : Nat) :
    Except LFError (DeepLinkState × List DeepLinkHandler.Invocation) :=
  match requireDeepLinkHandler s with
  | .error e => .error e
  | .ok dl => .ok (DeepLinkHandler.onDeferredDeepLink dl cb)

/-- LinkFortySDK.onDeepLink: guard, then delegate. -/
def onDeepLink (s : SDKState) (cb : Nat) : Except LFError DeepLinkState :=
  match requireDeepLinkHandler s with
  | .error e => .error e
  | .ok dl => .ok (DeepLinkHandler.onDeepLink dl cb)

/-- LinkFortySDK.handleDeepLink: guard, then delegate to the handler's URL
dispatch.  The post-guard dispatch is asynchronous resolution through the
URL parser and the transport; no claim depends on it, so only the guard is
modelled and the success case records that the call returned. -/
def handleDeepLink (s : SDKState) (_url : String) : Except LFError Unit :=
  match requireDeepLinkHandler s with
  | .error e => .error e
  | .ok _ => .ok ()

/-- LinkFortySDK.trackEvent: guard, then delegate to the tracker; on the
guard error no state exists to report. -/
def trackEvent (s : SDKState) (st : Storage) (sends : Nat → Option LFError)
    (name : String) (props : List (String × String)) (timestamp : String) :
    Except LFError Unit × Option (EventQueueState × Storage) :=
  match requireEventTracker s with
  | .error e => (.error e, none)
  | .ok q =>
    let r := EventTracker.trackEvent sends q st name props timestamp
    (r.result, some (r.queue, r.storage))

/-- LinkFortySDK.trackRevenue: guard, then delegate to the tracker. -/
def trackRevenue (s : SDKState) (st : Storage) (sends : Nat → Option LFError)
    (amount : Int) (currency : String) (props : List (String × String))
    (timestamp : String) :
    Except LFError Unit × Option (EventQueueState × Storage) :=
  match requireEventTracker s with
  | .error e => (.error e, none)
  | .ok q =>
    let r := EventTracker.trackRevenue sends q st amount currency props timestamp
    (r.result, some (r.queue, r.storage))

/-- LinkFortySDK.flushEvents: guard, then delegate to the tracker's
flushQueue. -/
def flushEvents (s : SDKState) (st : Storage)
    (sends : Nat → Option LFError) : Except LFError EventTracker.FlushOutcome :=
  match requireEventTracker s with
  | .error e => .error e
  | .ok q => .ok (EventTracker.flushQueue sends q st)

/-- LinkFortySDK.clearEventQueue: guard, then delegate to the tracker's
clearQueue. -/
def clearEventQueue (s : SDKState) (st : Storage) :
    Except LFError (EventQueueState × Storage) :=
  match requireEventTracker s with
  | .error e => .error e
  | .ok q => .ok (EventTracker.clearQueue q st)

/-- LinkFortySDK.createLink: `requireInitialized`, then a missing api key
throws; the body building and response mapping are a plain data transform
no claim depends on, so the network outcome is passed through.  The
`this.config!` assertion cannot fail after `initialize()`; the unreachable
null-config case is mapped to the guard error. -/
def createLink (s : SDKState) (oracle : Except LFError String) :
    Except LFError String :=
  match requireInitialized s with
  | .error e => .error e
  | .ok _ =>
    match s.config with
    | none => .error .notInitialized
    | some c =>
      if c.apiKey = none then .error .missingApiKey
      else oracle

/-- LinkFortySDK.getInstallId: `attributionManager?.getInstallId() ?? null`. -/
def getInstallId (s : SDKState) (st : Storage) : Option String :=
  if s.attributionPresent then AttributionManager.getInstallId st else none

/-- LinkFortySDK.getInstallData: `attributionManager?.getInstallData() ?? null`. -/
def getInstallData (s : SDKState) (st : Storage) : Option DeepLinkData :=
  if s.attributionPresent then AttributionManager.getInstallData st else none

/-- LinkFortySDK.isFirstLaunch: `attributionManager?.isFirstLaunch() ?? true`. -/
def isFirstLaunch (s : SDKState) (st : Storage) : Bool :=
  if s.attributionPresent then AttributionManager.isFirstLaunch st else true

/-- The `queuedEventCount` getter: `eventTracker?.queuedEventCount ?? 0`. -/
def queuedEventCount (s : SDKState) : Nat :=
  match s.eventTracker with
  | some q => EventTracker.queuedEventCount q
  | none => 0

end LinkFortySDK

/-! ## Sample values used by concrete counterexamples and witnesses -/

/-- A sample event record. -/
def evA : EventRequest :=
  { installId := "id-1", eventName := "purchase", eventData := []
    timestamp := "2026-01-01T00:00:00.000Z" }

/-- A second, distinct sample event record. -/
def evB : EventRequest :=
  { installId := "id-1", eventName := "add_to_cart", eventData := []
    timestamp := "2026-01-02T00:00:00.000Z" }

/-- A third, distinct sample event record. -/
def evC : EventRequest :=
  { installId := "id-1", eventName := "checkout", eventData := []
    timestamp := "2026-01-03T00:00:00.000Z" }

/-- A sample deep link payload. -/
def dlA : DeepLinkData := { shortCode := "abc123" }

/-- A second, distinct sample deep link payload. -/
def dlB : DeepLinkData := { shortCode := "xyz789" }

/-- An empty persistent store. -/
def stEmpty : Storage :=
  { installId := none, installData := none, firstLaunchFlag := none
    eventQueue := none }

/-- A populated store: attribution state plus a persisted one-record event
queue. -/
def stFull : Storage :=
  { installId := some "id-1", installData := some dlA
    firstLaunchFlag := some "true", eventQueue := some [evA] }

/-! ## Scenario definitions for the claims -/

/-- Send oracle for the C5 scenario: the second send of the call (index 1)
fails, every other send succeeds. -/
def c5sends : Nat → Option LFError :=
  fun n => if n = 1 then some (.networkError "offline") else none

/-- The C3 scenario, step 1: register callback 0 on a fresh handler (before
any delivery, so no immediate invocation happens). -/
def c3registered : DeepLinkState :=
  (DeepLinkHandler.onDeferredDeepLink DeepLinkHandler.fresh 0).1

/-- The C3 scenario, step 2: the first delivery. -/
def c3first : DeepLinkState × List DeepLinkHandler.Invocation :=
  DeepLinkHandler.deliverDeferredDeepLink c3registered (some dlA)

/-- The C3 scenario, step 3: a second delivery, with no callback registered
in between. -/
def c3second : DeepLinkState × List DeepLinkHandler.Invocation :=
  DeepLinkHandler.deliverDeferredDeepLink c3first.1 (some dlB)

/-- An attempt observation the transport retries: a non-2xx status outside
[400,500) or a transport-level failure. -/
def retryableFailure : AttemptResult → Prop
  | .httpError status _ => status < 400 ∨ 500 ≤ status
  | .transportFailure _ => True
  | _ => False

/-- The oracle for the C2 counterexample: every attempt observes HTTP 500. -/
def c2oracle : Nat → AttemptResult := fun _ => .httpError 500 none

/-- A concrete oracle for the C2 witness: DNS failure, HTTP 503, then a
connection timeout. -/
def c2witnessOracle : Nat → AttemptResult :=
  fun n =>
    if n = 1 then .transportFailure "dns"
    else if n = 2 then .httpError 503 none
    else .transportFailure "timeout"

/-- A concrete oracle for the C8 witness: a single 404 with a parseable
server message. -/
def c8oracle404 : Nat → AttemptResult :=
  fun _ => .httpError 404 (some "Not found")

/-- One abstract client operation on the offline queue, for the C6
any-sequence invariant. -/
inductive QueueOp where
  | load
  | enqueue (ev : EventRequest)
  | dequeue
  | clear
deriving DecidableEq, Repr

/-- Apply one queue operation to a queue instance and its backing store. -/
def applyOp (x : EventQueueState × Storage) : QueueOp → EventQueueState × Storage
  | .load => (EventQueue.load x.1 x.2, x.2)
  | .enqueue ev =>
    let r := EventQueue.enqueue x.1 x.2 ev
    (r.1, r.2.1)
  | .dequeue =>
    let r := EventQueue.dequeue x.1 x.2
    (r.1, r.2.1)
  | .clear => EventQueue.clear x.1 x.2

/-- Run a sequence of queue operations. -/
def runOps (ops : List QueueOp) (x : EventQueueState × Storage) :
    EventQueueState × Storage :=
  ops.foldl applyOp x

/-- The capacity invariant of the offline queue: neither the in-memory queue
nor the persisted entry holds more than MAX_QUEUE_SIZE records. -/
def queueLenInv (s : EventQueueState) (st : Storage) : Prop :=
  s.queue.length ≤ EventQueue.MAX_QUEUE_SIZE ∧
  (st.eventQueue.getD []).length ≤ EventQueue.MAX_QUEUE_SIZE

instance (s : EventQueueState) (st : Storage) : Decidable (queueLenInv s st) := by
  unfold queueLenInv
  exact inferInstance

/-- Enqueue a list of records one after the other, collecting the boolean
result of each enqueue. -/
def enqueueAll : List EventRequest → EventQueueState × Storage →
    (EventQueueState × Storage) × List Bool
  | [], x => (x, [])
  | ev :: rest, x =>
    let r := EventQueue.enqueue x.1 x.2 ev
    let out := enqueueAll rest (r.1, r.2.1)
    (out.1, r.2.2 :: out.2)

/-- A full (100-record) loaded queue instance for the C1 counterexample. -/
def c1fullQueue : EventQueueState :=
  { queue := List.replicate 100 evA, loaded := true }

/-- Store for the C1 counterexample: an install id is cached. -/
def c1storage : Storage :=
  { installId := some "id-1", installData := none
    firstLaunchFlag := some "true", eventQueue := none }

/-- Send oracle that fails every send, for the C1 counterexample and the
C10 witness. -/
def sendsAlwaysFail : Nat → Option LFError :=
  fun _ => some (.networkError "offline")

/-! ## Shared lemmas about the offline queue -/

/-- Loading an already-loaded queue instance is the identity. -/
theorem EventQueue.load_of_loaded (s : EventQueueState) (st : Storage)
    (h : s.loaded = true) : EventQueue.load s st = s := by
  simp [EventQueue.load, h]

/-- The queue instance produced by `load` always has the latch set. -/
theorem EventQueue.load_loaded (s : EventQueueState) (st : Storage) :
    (EventQueue.load s st).loaded = true := by
  by_cases h : s.loaded = true
  · simp [EventQueue.load, h]
  · simp [EventQueue.load, h]

/-! ## C4 — clearData and the persisted event queue -/

/-- Claim C4 counterexample: on a store whose persisted event-queue entry
holds one record, the Attribution Coordinator's `clearData` (which delegates
to `StorageManager.clearAll`, an `AsyncStorage.multiRemove` that includes
the event-queue key) removes that entry, so the persisted event-queue entry
is NOT the same after `clearData` as before, contradicting the claim. -/
theorem c4_counterexample_clearData_removes_queue_entry :
    stFull.eventQueue = some [evA] ∧
    (AttributionManager.clearData stFull).eventQueue = none ∧
    (AttributionManager.clearData stFull).eventQueue ≠ stFull.eventQueue := by
  refine ⟨rfl, rfl, ?_⟩
  decide

/-- Claim C4 (amended): `clearData` wipes the persisted attribution state
(install id, cached link data, launch flag) AND the persisted event-queue
entry — after it, reads of the attribution state see absence, the launch
counts as first again, and a fresh queue instance loads as empty.  Only the
in-memory queue of an existing event-tracker instance is outside its reach
(clearing that is a separate operation orchestrated by the enclosing SDK,
visible in the model in that `clearData` takes no queue-instance state). -/
theorem c4_clearData_wipes_all_persisted_state (st : Storage) :
    StorageManager.getInstallId (AttributionManager.clearData st) = none ∧
    StorageManager.getInstallData (AttributionManager.clearData st) = none ∧
    StorageManager.isFirstLaunch (AttributionManager.clearData st) = true ∧
    (AttributionManager.clearData st).eventQueue = none ∧
    (EventQueue.load EventQueue.fresh (AttributionManager.clearData st)).queue
      = [] := by
  exact ⟨rfl, rfl, rfl, rfl, rfl⟩

/-! ## C5 — flushQueue on a 3-record queue whose 2nd send fails -/

/-- Claim C5 counterexample: flushing a loaded 3-record queue whose 2nd send
fails leaves a queue of exactly TWO records — the never-attempted 3rd record
followed by the failed 2nd record — not the single record the claim states.
The rest of the claim is accurate: exactly one successful send happened
(the 1st record) and the 3rd record was never attempted. -/
theorem c5_counterexample_queue_has_two_records :
    EventTracker.flushQueue c5sends ⟨[evA, evB, evC], true⟩ stEmpty =
      ⟨⟨[evC, evB], true⟩, { stEmpty with eventQueue := some [evC, evB] },
       [evA], some (evB, .networkError "offline", true)⟩ ∧
    (EventTracker.flushQueue c5sends ⟨[evA, evB, evC], true⟩
        stEmpty).queue.queue.length ≠ 1 := by
  exact ⟨rfl, by decide⟩

/-- Claim C5 (amended): running `flushQueue` on a loaded 3-record queue
where sending the 2nd record fails leaves, after the call, a queue of
exactly 2 records — the never-attempted 3rd record at the head and the
failed 2nd record re-enqueued at the tail; exactly 1 successful send (the
1st record) occurred before the failure, and the 3rd record is never
attempted in that call. -/
theorem c5_flush_three_records_second_send_fails (e1 e2 e3 : EventRequest)
    (st : Storage) (err : LFError) :
    EventTracker.flushQueue (fun n => if n = 1 then some err else none)
        ⟨[e1, e2, e3], true⟩ st =
      ⟨⟨[e3, e2], true⟩, { st with eventQueue := some [e3, e2] },
       [e1], some (e2, err, true)⟩ := by
  rfl

/-! ## C3 — a second deliverDeferredDeepLink call -/

/-- Claim C3 counterexample: callback 0 fires in the first delivery, no
callback is registered afterwards, and yet the second
`deliverDeferredDeepLink` call invokes callback 0 again (the delivery loop
iterates over every registered deferred callback; fired callbacks are never
removed).  This contradicts the claim that a second call delivers only to
callbacks registered after the first delivery and that an already-fired
callback is not invoked again.  The payload-overwrite part of the claim is
accurate: the cached payload after the second call is the second payload. -/
theorem c3_counterexample_second_delivery_reinvokes_fired_callback :
    c3first.2 = [(0, some dlA)] ∧
    c3second.2 = [(0, some dlB)] ∧
    c3second.2 ≠ [] ∧
    c3second.1.cachedDeferredData = some dlB := by
  refine ⟨rfl, rfl, ?_, rfl⟩
  decide

/-- Registering a list of deferred callbacks only appends them to the
deferred registry (every other field is untouched). -/
theorem DeepLinkHandler.registerAll_eq (cbs : List Nat) (t : DeepLinkState) :
    cbs.foldl (fun t cb => (DeepLinkHandler.onDeferredDeepLink t cb).1) t =
      { t with deferredCallbacks := t.deferredCallbacks ++ cbs } := by
  induction cbs generalizing t with
  | nil => simp
  | cons c rest ih =>
    rw [List.foldl_cons, ih]
    simp [DeepLinkHandler.onDeferredDeepLink, List.append_assoc]

/-- Claim C3 (amended): a second `deliverDeferredDeepLink` call overwrites
the cached payload and synchronously re-invokes EVERY currently-registered
deferred callback with the new payload, in registration order — including
the callbacks that already fired in the first delivery, followed by any
callbacks registered in between. -/
theorem c3_second_delivery_invokes_every_registered_callback
    (s : DeepLinkState) (d1 d2 : Option DeepLinkData) (cbs : List Nat) :
    DeepLinkHandler.deliverDeferredDeepLink
        (cbs.foldl (fun t cb => (DeepLinkHandler.onDeferredDeepLink t cb).1)
          (DeepLinkHandler.deliverDeferredDeepLink s d1).1) d2 =
      ({ deferredCallbacks := s.deferredCallbacks ++ cbs
         deepLinkCallbacks := s.deepLinkCallbacks
         deferredDelivered := true
         cachedDeferredData := d2 },
       (s.deferredCallbacks ++ cbs).map (fun cb => (cb, d2))) := by
  rw [DeepLinkHandler.registerAll_eq]
  rfl

/-! ## C9 — facade behavior before initialization and after reset -/

/-- Claim C9: in the uninitialized facade state (a fresh instance, and
equally the state `reset()` returns to), the read accessors degrade instead
of failing — `getInstallId` and `getInstallData` give null, `isFirstLaunch`
gives true, `queuedEventCount` is 0 — while `trackEvent`, `trackRevenue`,
`flushEvents`, `clearEventQueue`, `onDeferredDeepLink`, `onDeepLink`,
`handleDeepLink` and `createLink` all throw the NOT_INITIALIZED error. -/
theorem c9_uninitialized_facade_degrades_or_guards (s : SDKState)
    (st : Storage) (sends : Nat → Option LFError) (cb : Nat)
    (url name cur ts : String) (props : List (String × String))
    (amount : Int) (oracle : Except LFError String) :
    LinkFortySDK.reset s = LinkFortySDK.initialState ∧
    LinkFortySDK.getInstallId LinkFortySDK.initialState st = none ∧
    LinkFortySDK.getInstallData LinkFortySDK.initialState st = none ∧
    LinkFortySDK.isFirstLaunch LinkFortySDK.initialState st = true ∧
    LinkFortySDK.queuedEventCount LinkFortySDK.initialState = 0 ∧
    (LinkFortySDK.trackEvent LinkFortySDK.initialState st sends name props
        ts).1 = .error .notInitialized ∧
    (LinkFortySDK.trackRevenue LinkFortySDK.initialState st sends amount cur
        props ts).1 = .error .notInitialized ∧
    LinkFortySDK.flushEvents LinkFortySDK.initialState st sends =
      .error .notInitialized ∧
    LinkFortySDK.clearEventQueue LinkFortySDK.initialState st =
      .error .notInitialized ∧
    LinkFortySDK.onDeferredDeepLink LinkFortySDK.initialState cb =
      .error .notInitialized ∧
    LinkFortySDK.onDeepLink LinkFortySDK.initialState cb =
      .error .notInitialized ∧
    LinkFortySDK.handleDeepLink LinkFortySDK.initialState url =
      .error .notInitialized ∧
    LinkFortySDK.createLink LinkFortySDK.initialState oracle =
      .error .notInitialized ∧
    LFError.notInitialized.code = .NOT_INITIALIZED := by
  exact ⟨rfl, rfl, rfl, rfl, rfl, rfl, rfl, rfl, rfl, rfl, rfl, rfl, rfl, rfl⟩

/-! ## Shared lemmas about the transport's attempt loop -/

/-- A retryable observation makes the attempt fail with an error the retry
classification does not rethrow immediately. -/
theorem retryable_perform (a : AttemptResult) (h : retryableFailure a) :
    ∃ e, NetworkManager.performRequest a = .error e ∧
      NetworkManager.isNonRetryable e = false := by
  cases a with
  | success body => exact absurd h (by simp [retryableFailure])
  | httpError status msg =>
    refine ⟨.invalidResponse status msg, rfl, ?_⟩
    simp only [retryableFailure] at h
    simp only [NetworkManager.isNonRetryable, Bool.and_eq_false_iff,
      decide_eq_false_iff_not, not_le, not_lt]
    omega
  | transportFailure cause => exact ⟨.networkError cause, rfl, rfl⟩
  | decodeFailure cause => exact absurd h (by simp [retryableFailure])

/-- One step of the attempt loop on a retryable failure that is not the
final attempt: record the error, sleep the backoff delay, move on. -/
theorem NetworkManager.requestGo_retry_step (oracle : Nat → AttemptResult)
    (fuel attempt : Nat) (last : Option LFError) (delays : List Nat)
    (e : LFError) (hlt : attempt < NetworkManager.maxRetries)
    (hp : NetworkManager.performRequest (oracle attempt) = .error e)
    (hn : NetworkManager.isNonRetryable e = false) :
    NetworkManager.requestGo oracle (fuel + 1) attempt last delays =
      NetworkManager.requestGo oracle fuel (attempt + 1) (some e)
        (delays ++ [2 ^ (attempt - 1) * 1000]) := by
  have hle : ¬ NetworkManager.maxRetries < attempt := by omega
  simp [NetworkManager.requestGo, hle, hp, hn, hlt]

/-- The final attempt of the loop on a retryable failure: record the error
without sleeping; the next loop entry exits and throws the recorded error. -/
theorem NetworkManager.requestGo_final_failure (oracle : Nat → AttemptResult)
    (last : Option LFError) (delays : List Nat) (e : LFError)
    (hp : NetworkManager.performRequest (oracle NetworkManager.maxRetries)
      = .error e)
    (hn : NetworkManager.isNonRetryable e = false) :
    NetworkManager.requestGo oracle 2 NetworkManager.maxRetries
        last delays =
      ⟨.error e, NetworkManager.maxRetries, delays⟩ := by
  simp only [NetworkManager.maxRetries] at hp
  simp [NetworkManager.requestGo, NetworkManager.maxRetries,
    NetworkManager.finalThrow, hp, hn]

/-- A successful attempt returns its body at once. -/
theorem NetworkManager.requestGo_success (oracle : Nat → AttemptResult)
    (fuel attempt : Nat) (last : Option LFError) (delays : List Nat)
    (body : String) (hle : ¬ NetworkManager.maxRetries < attempt)
    (hp : NetworkManager.performRequest (oracle attempt) = .ok body) :
    NetworkManager.requestGo oracle (fuel + 1) attempt last delays =
      ⟨.ok body, attempt, delays⟩ := by
  simp [NetworkManager.requestGo, hle, hp]

/-- A non-retryable failure is rethrown at once. -/
theorem NetworkManager.requestGo_nonretryable (oracle : Nat → AttemptResult)
    (fuel attempt : Nat) (last : Option LFError) (delays : List Nat)
    (e : LFError) (hle : ¬ NetworkManager.maxRetries < attempt)
    (hp : NetworkManager.performRequest (oracle attempt) = .error e)
    (hn : NetworkManager.isNonRetryable e = true) :
    NetworkManager.requestGo oracle (fuel + 1) attempt last delays =
      ⟨.error e, attempt, delays⟩ := by
  simp [NetworkManager.requestGo, hle, hp, hn]

/-! ## C2 — which error an exhausted request surfaces -/

/-- Claim C2 counterexample: a request whose 3 attempts all fail with HTTP
status 500 performs 3 attempts with the 1s and 2s backoff delays, and then
surfaces the last attempt's INVALID_RESPONSE error itself — not a
NETWORK_ERROR.  The final rethrow is
`lastError instanceof LinkFortyError ? lastError : networkError(...)`, and
an HTTP-status failure is already a LinkFortyError, so it is never wrapped:
the claim that every non-decoding, non-invalid-configuration failure that
exhausts retries is surfaced with code NETWORK_ERROR is false, and an
all-5xx request is NOT surfaced with the same error kind as a
transport-level failure. -/
theorem c2_counterexample_500s_surface_invalid_response :
    NetworkManager.request c2oracle =
      ⟨.error (.invalidResponse 500 none), 3, [1000, 2000]⟩ ∧
    (LFError.invalidResponse 500 none).code ≠ .NETWORK_ERROR := by
  exact ⟨rfl, by decide⟩

/-- Claim C2 (amended): when the request exhausts its 3 attempts on
retryable failures, the surfaced error is the LAST attempt's own error,
with the 1s and 2s backoff delays slept in between: a final transport-level
(DNS/connection/timeout) failure surfaces as a network error (code
NETWORK_ERROR) wrapping the underlying cause, while a final attempt that
failed with a retryable HTTP status (≥ 500 or < 400) surfaces as that
INVALID_RESPONSE error carrying the status.  Only a failure that is not
already an SDK error would be wrapped into a network error at exhaustion,
and every attempt failure is already an SDK error. -/
theorem c2_exhausted_request_surfaces_last_attempt_error
    (oracle : Nat → AttemptResult) (h1 : retryableFailure (oracle 1))
    (h2 : retryableFailure (oracle 2)) (h3 : retryableFailure (oracle 3)) :
    (∀ status msg, oracle 3 = .httpError status msg →
        NetworkManager.request oracle =
          ⟨.error (.invalidResponse status msg), 3, [1000, 2000]⟩ ∧
        (LFError.invalidResponse status msg).code = .INVALID_RESPONSE) ∧
    (∀ cause, oracle 3 = .transportFailure cause →
        NetworkManager.request oracle =
          ⟨.error (.networkError cause), 3, [1000, 2000]⟩ ∧
        (LFError.networkError cause).code = .NETWORK_ERROR) := by
  obtain ⟨e1, hp1, hn1⟩ := retryable_perform _ h1
  obtain ⟨e2, hp2, hn2⟩ := retryable_perform _ h2
  have step1 :
      NetworkManager.request oracle =
        NetworkManager.requestGo oracle 3 2 (some e1) [1000] := by
    have h := NetworkManager.requestGo_retry_step oracle 3 1 none [] e1
      (by decide) hp1 hn1
    simpa [NetworkManager.request] using h
  have step2 :
      NetworkManager.requestGo oracle 3 2 (some e1) [1000] =
        NetworkManager.requestGo oracle 2 3 (some e2) [1000, 2000] := by
    have h := NetworkManager.requestGo_retry_step oracle 2 2 (some e1)
      [1000] e2 (by decide) hp2 hn2
    simpa using h
  constructor
  · intro status msg hor
    have hn3 : NetworkManager.isNonRetryable (.invalidResponse status msg)
        = false := by
      rw [hor] at h3
      simp only [retryableFailure] at h3
      simp only [NetworkManager.isNonRetryable, Bool.and_eq_false_iff,
        decide_eq_false_iff_not, not_le, not_lt]
      omega
    have hp3 : NetworkManager.performRequest (oracle 3)
        = .error (.invalidResponse status msg) := by rw [hor]; rfl
    have step3 := NetworkManager.requestGo_final_failure oracle
      (some e2) [1000, 2000] (.invalidResponse status msg) hp3 hn3
    exact ⟨step1.trans (step2.trans step3), rfl⟩
  · intro cause hor
    have hp3 : NetworkManager.performRequest (oracle 3)
        = .error (.networkError cause) := by rw [hor]; rfl
    have step3 := NetworkManager.requestGo_final_failure oracle
      (some e2) [1000, 2000] (.networkError cause) hp3 rfl
    exact ⟨step1.trans (step2.trans step3), rfl⟩

/-- Claim C2 amended-theorem witness: a request whose three attempts observe
a DNS failure, an HTTP 503 and a connection timeout satisfies the
hypotheses, and the surfaced error is the final timeout as a network
error. -/
theorem c2_exhausted_request_witness :
    retryableFailure (c2witnessOracle 1) ∧
    retryableFailure (c2witnessOracle 2) ∧
    retryableFailure (c2witnessOracle 3) ∧
    (NetworkManager.request c2witnessOracle =
      ⟨.error (.networkError "timeout"), 3, [1000, 2000]⟩ ∧
     (LFError.networkError "timeout").code = .NETWORK_ERROR) := by
  refine ⟨by simp [retryableFailure, c2witnessOracle],
    by simp [retryableFailure, c2witnessOracle],
    by simp [retryableFailure, c2witnessOracle], ?_⟩
  exact (c2_exhausted_request_surfaces_last_attempt_error c2witnessOracle
    (by simp [retryableFailure, c2witnessOracle])
    (by simp [retryableFailure, c2witnessOracle])
    (by simp [retryableFailure, c2witnessOracle])).2 "timeout" rfl

/-! ## C8 — retry schedule on 500,500,200 and immediate failure on 404 -/

/-- Claim C8: a transport request whose attempts observe 500, 500, then a
parseable 200 body performs exactly 3 attempts, sleeping 1 second before
the 2nd and 2 seconds before the 3rd, and returns the 200 body; a request
whose first attempt observes any status in [400,500) performs exactly 1
attempt, sleeps no delay, and immediately surfaces the INVALID_RESPONSE
error carrying the status code and the server-supplied message when one was
parseable. -/
theorem c8_retry_schedule_and_4xx_fail_fast :
    (∀ (body : String) (m1 m2 : Option String),
        NetworkManager.request
            (fun n => if n = 1 then .httpError 500 m1
                      else if n = 2 then .httpError 500 m2
                      else .success body) =
          ⟨.ok body, 3, [1000, 2000]⟩) ∧
    (∀ (oracle : Nat → AttemptResult) (status : Nat) (msg : Option String),
        400 ≤ status → status < 500 → oracle 1 = .httpError status msg →
        NetworkManager.request oracle =
          ⟨.error (.invalidResponse status msg), 1, []⟩ ∧
        (LFError.invalidResponse status msg).code = .INVALID_RESPONSE) := by
  constructor
  · intro body m1 m2
    have step1 := NetworkManager.requestGo_retry_step
      (fun n => if n = 1 then .httpError 500 m1
                else if n = 2 then .httpError 500 m2
                else .success body) 3 1 none [] (.invalidResponse 500 m1)
      (by decide) rfl rfl
    have step2 := NetworkManager.requestGo_retry_step
      (fun n => if n = 1 then .httpError 500 m1
                else if n = 2 then .httpError 500 m2
                else .success body) 2 2 (some (.invalidResponse 500 m1))
      [1000] (.invalidResponse 500 m2) (by decide) rfl rfl
    have step3 := NetworkManager.requestGo_success
      (fun n => if n = 1 then .httpError 500 m1
                else if n = 2 then .httpError 500 m2
                else .success body) 1 3 (some (.invalidResponse 500 m2))
      [1000, 2000] body (by decide) rfl
    calc NetworkManager.request
          (fun n => if n = 1 then .httpError 500 m1
                    else if n = 2 then .httpError 500 m2
                    else .success body)
        = _ := by simpa [NetworkManager.request] using step1
      _ = _ := by simpa using step2
      _ = ⟨.ok body, 3, [1000, 2000]⟩ := step3
  · intro oracle status msg h4 h5 hor
    have hn : NetworkManager.isNonRetryable (.invalidResponse status msg)
        = true := by
      simp only [NetworkManager.isNonRetryable, Bool.and_eq_true,
        decide_eq_true_eq]
      omega
    have hp : NetworkManager.performRequest (oracle 1)
        = .error (.invalidResponse status msg) := by rw [hor]; rfl
    have h := NetworkManager.requestGo_nonretryable oracle 3 1 none []
      (.invalidResponse status msg) (by decide) hp hn
    exact ⟨by simpa [NetworkManager.request] using h, rfl⟩

/-- Claim C8 witness: a concrete 500,500,200 run and a concrete 404 run,
with the hypotheses of the 404 case discharged at status 404. -/
theorem c8_retry_schedule_witness :
    (NetworkManager.request
        (fun n => if n = 1 then .httpError 500 (some "Server error")
                  else if n = 2 then .httpError 500 (some "Server error")
                  else .success "payload") =
      ⟨.ok "payload", 3, [1000, 2000]⟩) ∧
    (400 ≤ 404 ∧ 404 < 500) ∧
    (NetworkManager.request c8oracle404 =
      ⟨.error (.invalidResponse 404 (some "Not found")), 1, []⟩ ∧
     (LFError.invalidResponse 404 (some "Not found")).code
        = .INVALID_RESPONSE) := by
  refine ⟨c8_retry_schedule_and_4xx_fail_fast.1 "payload"
      (some "Server error") (some "Server error"),
    ⟨by decide, by decide⟩, ?_⟩
  exact c8_retry_schedule_and_4xx_fail_fast.2 c8oracle404 404
    (some "Not found") (by decide) (by decide) rfl

/-! ## C6 — capacity invariant and the 100/101 boundary -/

/-- Loading preserves the capacity invariant. -/
theorem EventQueue.load_inv (s : EventQueueState) (st : Storage)
    (h : queueLenInv s st) : queueLenInv (EventQueue.load s st) st := by
  obtain ⟨h1, h2⟩ := h
  by_cases hl : s.loaded = true
  · rw [EventQueue.load_of_loaded s st hl]
    exact ⟨h1, h2⟩
  · exact ⟨by simpa [EventQueue.load, hl] using h2, h2⟩

/-- Enqueueing preserves the capacity invariant. -/
theorem EventQueue.enqueue_inv (s : EventQueueState) (st : Storage)
    (ev : EventRequest) (h : queueLenInv s st) :
    queueLenInv (EventQueue.enqueue s st ev).1
      (EventQueue.enqueue s st ev).2.1 := by
  obtain ⟨hload, hpers⟩ := EventQueue.load_inv s st h
  simp only [EventQueue.enqueue]
  by_cases hfull :
      EventQueue.MAX_QUEUE_SIZE ≤ (EventQueue.load s st).queue.length
  · simpa [hfull] using ⟨hload, h.2⟩
  · simp only [hfull, if_false, EventQueue.persist]
    refine ⟨?_, ?_⟩ <;> simp <;> omega

/-- Dequeueing preserves the capacity invariant. -/
theorem EventQueue.dequeue_inv (s : EventQueueState) (st : Storage)
    (h : queueLenInv s st) :
    queueLenInv (EventQueue.dequeue s st).1
      (EventQueue.dequeue s st).2.1 := by
  obtain ⟨hload, hpers⟩ := EventQueue.load_inv s st h
  simp only [EventQueue.dequeue]
  rcases hq : (EventQueue.load s st).queue with _ | ⟨e, rest⟩
  · exact ⟨by simp [hq], h.2⟩
  · rw [hq] at hload
    simp only [EventQueue.persist]
    refine ⟨?_, ?_⟩ <;> simp at hload ⊢ <;> omega

/-- Clearing preserves the capacity invariant. -/
theorem EventQueue.clear_inv (s : EventQueueState) (st : Storage)
    (_h : queueLenInv s st) :
    queueLenInv (EventQueue.clear s st).1 (EventQueue.clear s st).2 := by
  simp [EventQueue.clear, EventQueue.persist, queueLenInv]

/-- Every single queue operation preserves the capacity invariant. -/
theorem applyOp_inv (x : EventQueueState × Storage) (op : QueueOp)
    (h : queueLenInv x.1 x.2) :
    queueLenInv (applyOp x op).1 (applyOp x op).2 := by
  cases op with
  | load => exact ⟨(EventQueue.load_inv x.1 x.2 h).1, h.2⟩
  | enqueue ev => exact EventQueue.enqueue_inv x.1 x.2 ev h
  | dequeue => exact EventQueue.dequeue_inv x.1 x.2 h
  | clear => exact EventQueue.clear_inv x.1 x.2 h

/-- Any sequence of queue operations preserves the capacity invariant. -/
theorem runOps_inv (ops : List QueueOp) (x : EventQueueState × Storage)
    (h : queueLenInv x.1 x.2) :
    queueLenInv (runOps ops x).1 (runOps ops x).2 := by
  induction ops generalizing x with
  | nil => exact h
  | cons op rest ih => exact ih (applyOp x op) (applyOp_inv x op h)

/-- Enqueue on a loaded queue below capacity: append, persist, true. -/
theorem EventQueue.enqueue_below_capacity (q : List EventRequest)
    (st : Storage) (ev : EventRequest)
    (hlen : q.length < EventQueue.MAX_QUEUE_SIZE) :
    EventQueue.enqueue ⟨q, true⟩ st ev =
      (⟨q ++ [ev], true⟩, { st with eventQueue := some (q ++ [ev]) },
       true) := by
  have : ¬ EventQueue.MAX_QUEUE_SIZE ≤ q.length := by omega
  simp [EventQueue.enqueue, EventQueue.load, EventQueue.persist, this]

/-- Enqueue on a loaded full queue: rejected, nothing mutated. -/
theorem EventQueue.enqueue_at_capacity (s : EventQueueState) (st : Storage)
    (ev : EventRequest) (hl : s.loaded = true)
    (hfull : EventQueue.MAX_QUEUE_SIZE ≤ s.queue.length) :
    EventQueue.enqueue s st ev = (s, st, false) := by
  simp [EventQueue.enqueue, EventQueue.load_of_loaded s st hl, hfull]

/-- Enqueueing a list that fits entirely within the remaining capacity of a
loaded queue succeeds record by record and appends the list in order. -/
theorem enqueueAll_spec (evs : List EventRequest) :
    ∀ (q : List EventRequest) (st : Storage),
      q.length + evs.length ≤ EventQueue.MAX_QUEUE_SIZE →
      (enqueueAll evs (⟨q, true⟩, st)).2 = List.replicate evs.length true ∧
      (enqueueAll evs (⟨q, true⟩, st)).1.1 = ⟨q ++ evs, true⟩ := by
  induction evs with
  | nil => intro q st _h; simp [enqueueAll]
  | cons ev rest ih =>
    intro q st h
    have hlen : q.length < EventQueue.MAX_QUEUE_SIZE := by
      simp [List.length_cons] at h; omega
    have he := EventQueue.enqueue_below_capacity q st ev hlen
    obtain ⟨ih1, ih2⟩ := ih (q ++ [ev])
      { st with eventQueue := some (q ++ [ev]) }
      (by simp at h ⊢; omega)
    simp only [enqueueAll, he, ih1, ih2, List.length_cons,
      List.replicate_succ, List.append_assoc, List.singleton_append,
      List.cons_append, List.nil_append]
    simp

/-- Claim C6: (1) starting from any queue whose in-memory content and
persisted entry are within the 100-record capacity, any sequence of
load/enqueue/dequeue/clear operations keeps both within capacity; (2) on a
queue that loads as empty, enqueueing 100 records returns true for all 100
and leaves exactly those 100 records in order, and a 101st enqueue returns
false with the queue, the store and the order of the 100 records
unchanged. -/
theorem c6_capacity_invariant_and_boundary :
    (∀ (ops : List QueueOp) (s : EventQueueState) (st : Storage),
        queueLenInv s st →
        queueLenInv (runOps ops (s, st)).1 (runOps ops (s, st)).2) ∧
    (∀ (evs : List EventRequest) (s : EventQueueState) (st : Storage)
        (ev' : EventRequest),
        (EventQueue.load s st).queue = [] → evs.length = 100 →
        (enqueueAll evs (EventQueue.load s st, st)).2
            = List.replicate 100 true ∧
        (enqueueAll evs (EventQueue.load s st, st)).1.1.queue = evs ∧
        EventQueue.enqueue (enqueueAll evs (EventQueue.load s st, st)).1.1
            (enqueueAll evs (EventQueue.load s st, st)).1.2 ev' =
          ((enqueueAll evs (EventQueue.load s st, st)).1.1,
           (enqueueAll evs (EventQueue.load s st, st)).1.2, false)) := by
  constructor
  · intro ops s st h
    exact runOps_inv ops (s, st) h
  · intro evs s st ev' hq hlen
    have hloadEq : EventQueue.load s st = ⟨[], true⟩ := by
      have h1 := EventQueue.load_loaded s st
      rcases hE : EventQueue.load s st with ⟨q, l⟩
      rw [hE] at hq h1
      simp only at hq h1
      rw [hq, h1]
    rw [hloadEq]
    obtain ⟨h2, h3⟩ := enqueueAll_spec evs [] st
      (by simp [hlen, EventQueue.MAX_QUEUE_SIZE])
    rw [hlen] at h2
    refine ⟨h2, by simp [h3], ?_⟩
    apply EventQueue.enqueue_at_capacity
    · rw [h3]
    · rw [h3]; simp [hlen, EventQueue.MAX_QUEUE_SIZE]

/-- Claim C6 witness: the invariant conjunct at a concrete 4-operation
sequence from an empty queue, and the boundary conjunct at 100 copies of a
concrete record followed by a 101st distinct record. -/
theorem c6_capacity_witness :
    queueLenInv EventQueue.fresh stEmpty ∧
    queueLenInv
      (runOps [.enqueue evA, .load, .dequeue, .clear]
        (EventQueue.fresh, stEmpty)).1
      (runOps [.enqueue evA, .load, .dequeue, .clear]
        (EventQueue.fresh, stEmpty)).2 ∧
    (EventQueue.load EventQueue.fresh stEmpty).queue = [] ∧
    (List.replicate 100 evA).length = 100 ∧
    ((enqueueAll (List.replicate 100 evA)
          (EventQueue.load EventQueue.fresh stEmpty, stEmpty)).2
        = List.replicate 100 true ∧
     (enqueueAll (List.replicate 100 evA)
          (EventQueue.load EventQueue.fresh stEmpty, stEmpty)).1.1.queue
        = List.replicate 100 evA ∧
     EventQueue.enqueue
          (enqueueAll (List.replicate 100 evA)
            (EventQueue.load EventQueue.fresh stEmpty, stEmpty)).1.1
          (enqueueAll (List.replicate 100 evA)
            (EventQueue.load EventQueue.fresh stEmpty, stEmpty)).1.2 evB =
        ((enqueueAll (List.replicate 100 evA)
            (EventQueue.load EventQueue.fresh stEmpty, stEmpty)).1.1,
         (enqueueAll (List.replicate 100 evA)
            (EventQueue.load EventQueue.fresh stEmpty, stEmpty)).1.2,
         false)) := by
  refine ⟨by decide, ?_, by decide, by decide, ?_⟩
  · exact c6_capacity_invariant_and_boundary.1
      [.enqueue evA, .load, .dequeue, .clear] EventQueue.fresh stEmpty
      (by decide)
  · exact c6_capacity_invariant_and_boundary.2 (List.replicate 100 evA)
      EventQueue.fresh stEmpty evB (by decide) (by decide)

/-! ## C10 — flushQueue never grows the queue; re-enqueue never fails -/

/-- A queue instance with the latch set is determined by its queue. -/
theorem EventQueueState.eta_loaded (s : EventQueueState)
    (h : s.loaded = true) : s = ⟨s.queue, true⟩ := by
  cases s
  simp_all

/-- Enqueue may be computed on the loaded instance. -/
theorem EventQueue.enqueue_load_eq (s : EventQueueState) (st : Storage)
    (ev : EventRequest) :
    EventQueue.enqueue s st ev =
      EventQueue.enqueue (EventQueue.load s st) st ev := by
  simp only [EventQueue.enqueue,
    EventQueue.load_of_loaded (EventQueue.load s st) st
      (EventQueue.load_loaded s st)]

/-- The flush loop on an empty queue ends at once. -/
theorem EventTracker.flushLoop_empty (sends : Nat → Option LFError)
    (n idx : Nat) (s : EventQueueState) (st : Storage)
    (hemp : EventQueue.isEmpty s = true) :
    EventTracker.flushLoop sends (n + 1) idx s st = ⟨s, st, [], none⟩ := by
  simp [EventTracker.flushLoop, hemp]

/-- One unfolding of the flush loop on a loaded non-empty queue: dequeue the
head, then either recurse after a successful send or re-enqueue and stop on
a failed send. -/
theorem EventTracker.flushLoop_cons (sends : Nat → Option LFError)
    (n idx : Nat) (s : EventQueueState) (st : Storage) (e : EventRequest)
    (rest : List EventRequest) (hl : s.loaded = true)
    (hq : s.queue = e :: rest) :
    EventTracker.flushLoop sends (n + 1) idx s st =
      match sends idx with
      | none =>
        let out := EventTracker.flushLoop sends n (idx + 1) ⟨rest, true⟩
          { st with eventQueue := some rest }
        ⟨out.queue, out.storage, e :: out.sent, out.failed⟩
      | some err =>
        let r := EventQueue.enqueue ⟨rest, true⟩
          { st with eventQueue := some rest } e
        ⟨r.1, r.2.1, [], some (e, err, r.2.2)⟩ := by
  cases s with
  | mk q l =>
    simp only at hl hq
    subst hl hq
    rfl

/-- One unfolding of the flush loop when the head's send succeeds. -/
theorem EventTracker.flushLoop_cons_ok (sends : Nat → Option LFError)
    (n idx : Nat) (s : EventQueueState) (st : Storage) (e : EventRequest)
    (rest : List EventRequest) (hl : s.loaded = true)
    (hq : s.queue = e :: rest) (hsend : sends idx = none) :
    EventTracker.flushLoop sends (n + 1) idx s st =
      ⟨(EventTracker.flushLoop sends n (idx + 1) ⟨rest, true⟩
          { st with eventQueue := some rest }).queue,
       (EventTracker.flushLoop sends n (idx + 1) ⟨rest, true⟩
          { st with eventQueue := some rest }).storage,
       e :: (EventTracker.flushLoop sends n (idx + 1) ⟨rest, true⟩
          { st with eventQueue := some rest }).sent,
       (EventTracker.flushLoop sends n (idx + 1) ⟨rest, true⟩
          { st with eventQueue := some rest }).failed⟩ := by
  rw [EventTracker.flushLoop_cons sends n idx s st e rest hl hq, hsend]

/-- One unfolding of the flush loop when the head's send fails and the rest
of the queue is below capacity: the head is re-enqueued at the tail and the
loop stops, reporting a successful re-enqueue. -/
theorem EventTracker.flushLoop_cons_fail (sends : Nat → Option LFError)
    (n idx : Nat) (s : EventQueueState) (st : Storage) (e : EventRequest)
    (rest : List EventRequest) (err : LFError) (hl : s.loaded = true)
    (hq : s.queue = e :: rest) (hsend : sends idx = some err)
    (hcap : rest.length < EventQueue.MAX_QUEUE_SIZE) :
    EventTracker.flushLoop sends (n + 1) idx s st =
      ⟨⟨rest ++ [e], true⟩, { st with eventQueue := some (rest ++ [e]) },
       [], some (e, err, true)⟩ := by
  rw [EventTracker.flushLoop_cons sends n idx s st e rest hl hq, hsend]
  dsimp only
  rw [EventQueue.enqueue_below_capacity rest
    { st with eventQueue := some rest } e hcap]

/-- The flush loop on a loaded queue within capacity: the queue never grows,
stays loaded, and when a send failed, the re-enqueue of the failed record
returned true and the record sits in the resulting queue. -/
theorem EventTracker.flushLoop_spec (sends : Nat → Option LFError) :
    ∀ (fuel idx : Nat) (s : EventQueueState) (st : Storage),
      s.loaded = true → s.queue.length ≤ EventQueue.MAX_QUEUE_SIZE →
      (EventTracker.flushLoop sends fuel idx s st).queue.queue.length
          ≤ s.queue.length ∧
      (EventTracker.flushLoop sends fuel idx s st).queue.loaded = true ∧
      ∀ ev err b,
        (EventTracker.flushLoop sends fuel idx s st).failed
            = some (ev, err, b) →
        b = true ∧
        ev ∈ (EventTracker.flushLoop sends fuel idx s st).queue.queue := by
  intro fuel
  induction fuel with
  | zero =>
    intro idx s st hl _hlen
    refine ⟨le_rfl, hl, ?_⟩
    intro ev err b hce
    simp [EventTracker.flushLoop] at hce
  | succ n ih =>
    intro idx s st hl hlen
    rcases hq : s.queue with _ | ⟨e, rest⟩
    · have hemp : EventQueue.isEmpty s = true := by
        simp [EventQueue.isEmpty, hq]
      rw [EventTracker.flushLoop_empty sends n idx s st hemp]
      refine ⟨by simp [hq], hl, ?_⟩
      intro ev err b hce
      simp at hce
    · have hrestlen : rest.length < EventQueue.MAX_QUEUE_SIZE := by
        rw [hq] at hlen
        simp at hlen
        omega
      cases hsend : sends idx with
      | none =>
        rw [EventTracker.flushLoop_cons_ok sends n idx s st e rest hl hq
          hsend]
        have hrec := ih (idx + 1) ⟨rest, true⟩
          { st with eventQueue := some rest } rfl (by simp; omega)
        refine ⟨?_, hrec.2.1, ?_⟩
        · refine le_trans hrec.1 ?_
          simp [hq]
        · intro ev err b hce
          exact hrec.2.2 ev err b hce
      | some failErr =>
        rw [EventTracker.flushLoop_cons_fail sends n idx s st e rest
          failErr hl hq hsend hrestlen]
        refine ⟨by simp [hq], rfl, ?_⟩
        intro ev err b hce
        simp only [Option.some.injEq, Prod.mk.injEq] at hce
        obtain ⟨hev, _herr, hb⟩ := hce
        subst hev
        exact ⟨hb.symm, by simp⟩

/-- Claim C10: for every starting queue whose loaded content holds at most
100 records, `flushQueue` never increases the queue's length, and a record
whose send fails is never silently dropped — its re-enqueue returns true
(the dequeue that preceded it left the length strictly below the 100-record
capacity) and the record is in the queue after the call. -/
theorem c10_flush_never_grows_and_reenqueue_succeeds
    (sends : Nat → Option LFError) (s : EventQueueState) (st : Storage)
    (h : (EventQueue.load s st).queue.length ≤ 100) :
    (EventTracker.flushQueue sends s st).queue.queue.length ≤
      (EventQueue.load s st).queue.length ∧
    ∀ ev err b,
      (EventTracker.flushQueue sends s st).failed = some (ev, err, b) →
      b = true ∧ ev ∈ (EventTracker.flushQueue sends s st).queue.queue := by
  have hspec := EventTracker.flushLoop_spec sends
    ((EventQueue.load s st).queue.length + 1) 0 (EventQueue.load s st) st
    (EventQueue.load_loaded s st) h
  exact ⟨hspec.1, hspec.2.2⟩

/-- Claim C10 witness: flushing a loaded 2-record queue whose every send
fails; the hypothesis holds at length 2 and the queue does not grow. -/
theorem c10_flush_witness :
    (EventQueue.load ⟨[evA, evB], true⟩ stEmpty).queue.length ≤ 100 ∧
    (EventTracker.flushQueue sendsAlwaysFail ⟨[evA, evB], true⟩
        stEmpty).queue.queue.length ≤
      (EventQueue.load ⟨[evA, evB], true⟩ stEmpty).queue.length := by
  exact ⟨by decide,
    (c10_flush_never_grows_and_reenqueue_succeeds sendsAlwaysFail
      ⟨[evA, evB], true⟩ stEmpty (by decide)).1⟩

/-! ## C1 — trackEvent/trackRevenue: send or enqueue exactly once -/

/-- Claim C1 counterexample: with a full 100-record queue, a valid event
name and a cached install id, a failing `trackEvent` settles with the
original error but the record is NOT in the queue afterwards (`enqueue`
rejects it because the queue is at capacity) — the record is lost, so the
claim's "never lost … including a queue already holding 100 records" is
false. -/
theorem c1_counterexample_full_queue_loses_record :
    (EventTracker.trackEvent sendsAlwaysFail c1fullQueue c1storage
        "checkout" [] "ts").result = .error (.networkError "offline") ∧
    (EventTracker.trackEvent sendsAlwaysFail c1fullQueue c1storage
        "checkout" [] "ts").queue.queue.count
        ⟨"id-1", "checkout", [], "ts"⟩ = 0 ∧
    (EventTracker.trackEvent sendsAlwaysFail c1fullQueue c1storage
        "checkout" [] "ts").queue.queue.length = 100 := by
  refine ⟨by decide, by decide, by decide⟩

/-- Claim C1 (amended): for every valid (non-blank) event name, when an
install id is cached, `trackEvent` either sends the record successfully, or
settles with the send's error and — provided the loaded queue held fewer
than 100 records — appends the record to the queue exactly once (its
occurrence count increases by exactly one, so it is neither duplicated nor
lost); when the loaded queue already holds 100 or more records the failed
record is dropped and the queue is unchanged.  `trackRevenue` with a
non-negative amount delegates to `trackEvent 'revenue'`, so the same holds
for it. -/
theorem c1_track_event_sends_or_enqueues_once
    (sends : Nat → Option LFError) (s : EventQueueState) (st : Storage)
    (name : String) (props : List (String × String)) (ts iid : String)
    (hname : blankEventName name = false) (hid : st.installId = some iid) :
    (sends 0 = none →
      (EventTracker.trackEvent sends s st name props ts).result = .ok ()) ∧
    (∀ err, sends 0 = some err →
      (EventTracker.trackEvent sends s st name props ts).result
          = .error err ∧
      ((EventQueue.load s st).queue.length < 100 →
        (EventTracker.trackEvent sends s st name props ts).queue.queue =
          (EventQueue.load s st).queue ++ [⟨iid, name, props, ts⟩] ∧
        (EventTracker.trackEvent sends s st name props
            ts).queue.queue.count ⟨iid, name, props, ts⟩ =
          (EventQueue.load s st).queue.count ⟨iid, name, props, ts⟩ + 1) ∧
      (100 ≤ (EventQueue.load s st).queue.length →
        (EventTracker.trackEvent sends s st name props ts).queue.queue =
          (EventQueue.load s st).queue)) ∧
    (∀ amount : Int, 0 ≤ amount → ∀ cur,
      EventTracker.trackRevenue sends s st amount cur props ts =
        EventTracker.trackEvent sends s st "revenue"
          (props ++ [("revenue", toString amount), ("currency", cur)])
          ts) := by
  refine ⟨?_, ?_, ?_⟩
  · intro h0
    simp [EventTracker.trackEvent, hname, StorageManager.getInstallId, hid,
      h0]
  · intro err h0
    have hload := EventQueue.load_loaded s st
    have htrack : EventTracker.trackEvent sends s st name props ts =
        ⟨.error err,
         (EventQueue.enqueue s st ⟨iid, name, props, ts⟩).1,
         (EventQueue.enqueue s st ⟨iid, name, props, ts⟩).2.1⟩ := by
      simp [EventTracker.trackEvent, hname, StorageManager.getInstallId,
        hid, h0]
    refine ⟨by rw [htrack], ?_, ?_⟩
    · intro hlt
      have henq : EventQueue.enqueue s st ⟨iid, name, props, ts⟩ =
          (⟨(EventQueue.load s st).queue ++ [⟨iid, name, props, ts⟩], true⟩,
           EventQueue.persist
             ⟨(EventQueue.load s st).queue ++ [⟨iid, name, props, ts⟩],
              true⟩ st,
           true) := by
        rw [EventQueue.enqueue_load_eq,
          EventQueueState.eta_loaded (EventQueue.load s st) hload]
        exact EventQueue.enqueue_below_capacity
          (EventQueue.load s st).queue st ⟨iid, name, props, ts⟩ hlt
      rw [htrack, henq]
      refine ⟨rfl, ?_⟩
      simp [List.count_append]
    · intro hge
      have henq : EventQueue.enqueue s st ⟨iid, name, props, ts⟩ =
          (EventQueue.load s st, st, false) :=
        (EventQueue.enqueue_load_eq s st _).trans
          (EventQueue.enqueue_at_capacity (EventQueue.load s st) st _
            hload hge)
      rw [htrack, henq]
  · intro amount hamount cur
    have hneg : ¬ amount < 0 := not_lt.mpr hamount
    simp [EventTracker.trackRevenue, hneg]

/-- Claim C1 amended-theorem witness: a failing send with a one-record
loaded queue and a cached install id; the record is appended exactly once. -/
theorem c1_track_event_witness :
    blankEventName "checkout" = false ∧
    c1storage.installId = some "id-1" ∧
    ((EventTracker.trackEvent sendsAlwaysFail ⟨[evA], true⟩ c1storage
        "checkout" [] "ts").result = .error (.networkError "offline") ∧
     (EventTracker.trackEvent sendsAlwaysFail ⟨[evA], true⟩ c1storage
        "checkout" [] "ts").queue.queue =
      (EventQueue.load ⟨[evA], true⟩ c1storage).queue ++
        [⟨"id-1", "checkout", [], "ts"⟩] ∧
     (EventTracker.trackEvent sendsAlwaysFail ⟨[evA], true⟩ c1storage
        "checkout" [] "ts").queue.queue.count
        ⟨"id-1", "checkout", [], "ts"⟩ =
      (EventQueue.load ⟨[evA], true⟩ c1storage).queue.count
        ⟨"id-1", "checkout", [], "ts"⟩ + 1) := by
  have h := c1_track_event_sends_or_enqueues_once sendsAlwaysFail
    ⟨[evA], true⟩ c1storage "checkout" [] "ts" "id-1" (by decide) rfl
  have h2 := h.2.1 (.networkError "offline") rfl
  have h3 := h2.2.1 (by decide)
  exact ⟨by decide, rfl, h2.1, h3.1, h3.2⟩

/-! ## C7 — repeat-launch attribution is served from the cache -/

/-- After any `reportInstall` call the launch flag is set: a repeat launch
keeps it, and both first-launch paths (network failure treated as organic,
and success) call `setHasLaunched`. -/
theorem AttributionManager.reportInstall_sets_flag
    (oracle : Except LFError InstallAttributionResponse) (st : Storage) :
    (AttributionManager.reportInstall oracle st).storage.firstLaunchFlag
      ≠ none := by
  by_cases h : st.firstLaunchFlag = none
  · have hf : StorageManager.isFirstLaunch st = true := by
      simp [StorageManager.isFirstLaunch, h]
    cases oracle with
    | error e =>
      simp [AttributionManager.reportInstall, hf,
        StorageManager.setHasLaunched]
    | ok resp =>
      rcases resp with ⟨rid, rattr, rscore, rfac, rdl⟩
      cases rattr <;> cases rdl <;>
        simp [AttributionManager.reportInstall, hf,
          StorageManager.setHasLaunched, StorageManager.saveInstallId,
          StorageManager.saveInstallData]
  · have hf : StorageManager.isFirstLaunch st = false := by
      simp [StorageManager.isFirstLaunch, h]
    simpa [AttributionManager.reportInstall, hf] using h

/-- Claim C7: on a repeat launch (the launch flag is persisted),
`reportInstall` performs no network request and returns a result synthesized
purely from cached storage — `installId` is the cached id (or the empty
string), `attributed` is true exactly when a cached payload exists,
`confidenceScore` is 100 if attributed else 0, `matchedFactors` is empty,
and `deepLinkData` is the cached payload; moreover after ANY first call
(over any storage, any network outcome) a second coordinator instance over
the resulting storage performs no network call and reports `attributed`
consistent with the cached payload. -/
theorem c7_repeat_launch_synthesizes_from_cache (st st0 : Storage)
    (oracle oracle2 : Except LFError InstallAttributionResponse)
    (h : st.firstLaunchFlag ≠ none) :
    AttributionManager.reportInstall oracle st =
      ⟨{ installId := st.installId.getD ""
         attributed := st.installData.isSome
         confidenceScore := if st.installData.isSome then 100 else 0
         matchedFactors := []
         deepLinkData := st.installData }, st, false⟩ ∧
    (AttributionManager.reportInstall oracle2
        (AttributionManager.reportInstall oracle st0).storage).networkCalled
      = false ∧
    (AttributionManager.reportInstall oracle2
        (AttributionManager.reportInstall oracle
          st0).storage).response.attributed
      = ((AttributionManager.reportInstall oracle
          st0).storage.installData).isSome := by
  have repeat_eq : ∀ (stR : Storage), stR.firstLaunchFlag ≠ none →
      ∀ (orc : Except LFError InstallAttributionResponse),
      AttributionManager.reportInstall orc stR =
        ⟨AttributionManager.buildCachedResponse stR, stR, false⟩ := by
    intro stR hR orc
    have hf : StorageManager.isFirstLaunch stR = false := by
      simp [StorageManager.isFirstLaunch, hR]
    simp [AttributionManager.reportInstall, hf]
  refine ⟨?_, ?_, ?_⟩
  · rw [repeat_eq st h oracle]
    rfl
  · rw [repeat_eq _ (AttributionManager.reportInstall_sets_flag oracle st0)
      oracle2]
  · rw [repeat_eq _ (AttributionManager.reportInstall_sets_flag oracle st0)
      oracle2]
    rfl

/-- Claim C7 witness: over a populated store whose launch flag is set, a
coordinator backed by a failing network synthesizes the attributed cached
response with no network call. -/
theorem c7_repeat_launch_witness :
    stFull.firstLaunchFlag ≠ none ∧
    AttributionManager.reportInstall (.error (.networkError "down"))
        stFull =
      ⟨{ installId := "id-1", attributed := true, confidenceScore := 100
         matchedFactors := [], deepLinkData := some dlA }, stFull, false⟩ := by
  refine ⟨by decide, ?_⟩
  have h := (c7_repeat_launch_synthesizes_from_cache stFull stEmpty
    (.error (.networkError "down")) (.error (.networkError "down"))
    (by decide)).1
  exact h.trans (by rfl)

end LinkForty
